import Mathlib

/-!
Verification development for the task_manager repository.

The definitions below are a shallow embedding of the persistence layer
(`database.py`), the automation engine (`main.py`), and the status-change
handlers (`task_manager_tab.py`, `today_dashboard_tab.py`).  SQLite tables
become Lean lists of records, mutation functions become pure state
transformers, and `uuid.uuid4()` is modelled by a fresh-id counter carried in
the state.  Query result ordering clauses (`ORDER BY ...`) that no examined
property depends on are not modelled; rows keep insertion order.
-/

namespace TaskManager

/-- Row of the `tasks` table (database.py, `create_tables`).  Nullable columns
are `Option`; `id` values (uuid strings in the source) are modelled as `Nat`. -/
structure Task where
  id : Nat
  description : String
  status : String
  date_added : String
  deadline : Option String := none
  priority : Option String := none
  category : Option String := none
  notes : Option String := none
  date_completed : Option String := none
  schedule_event_id : Option Nat := none
  created_by_automation_id : Option Nat := none
  show_mode : String := "auto"
  parent_task_id : Option Nat := none
  deriving Repr, DecidableEq

/-- The `task_data` dict handed to `add_task` (it carries a `status` key that
`add_task` ignores, inserting the literal string `'pending'` instead). -/
structure TaskInput where
  id : Nat
  description : String
  status : String := "pending"
  date_added : String
  deadline : Option String := none
  priority : Option String := none
  category : Option String := none
  notes : Option String := none
  created_by_automation_id : Option Nat := none
  show_mode : String := "auto"
  parent_task_id : Option Nat := none
  deriving Repr, DecidableEq

/-- Row of the `schedule_events` table. -/
structure ScheduleEvent where
  id : Nat
  date : String
  start_time : String
  end_time : String
  title : String
  color : Option String := none
  deriving Repr, DecidableEq

/-- Row of the `calendar_events` table. -/
structure CalendarEvent where
  id : Nat
  date : String
  title : String
  start_time : Option String := none
  end_time : Option String := none
  deriving Repr, DecidableEq

/-- Row of the `automations` table (database.py lines 83-88: the schema has
columns `id`, `trigger_title`, `rule_name` and nothing else — in particular no
`trigger_day_of_week` column, although the rule dialog builds such a mask). -/
structure Automation where
  id : Nat
  trigger_title : String
  rule_name : String
  deriving Repr, DecidableEq

/-- Row of the `automation_actions` table. -/
structure AutomationAction where
  id : Nat
  automation_id : Nat
  action_type : String
  param1 : Option String := none
  param2 : Option String := none
  param3 : Option String := none
  deriving Repr, DecidableEq

/-- Row of the `task_show_dates` table. -/
structure ShowDateRow where
  task_id : Nat
  show_date : String
  deriving Repr, DecidableEq

/-- Row of the `task_completion_log` table. -/
structure CompletionLogRow where
  task_id : Nat
  completion_date : String
  deriving Repr, DecidableEq

/-- Modelled from the spec: the Dependency table.  The functions
`add_task_dependency`, `get_task_dependencies`, `remove_task_dependency` and
`get_pending_dependency_count` are imported from `app.core.database` by
`dialogs_task.py` and `task_manager_tab.py` but are missing from the source
snapshot; the spec describes a Dependency edge as the pair
`(task_id, depends_on_task_id)` with cascade delete in both directions. -/
structure DependencyRow where
  task_id : Nat
  depends_on_id : Nat
  deriving Repr, DecidableEq

/-- The persistent store.  `next_uuid` models `uuid.uuid4()` as a fresh
counter; `last_automation_run_date` is the `app_state` row keyed
`'last_automation_run_date'` (seeded `'1970-01-01'` by `create_tables`). -/
structure DBState where
  tasks : List Task := []
  schedule_events : List ScheduleEvent := []
  calendar_events : List CalendarEvent := []
  automations : List Automation := []
  automation_actions : List AutomationAction := []
  task_show_dates : List ShowDateRow := []
  task_completion_log : List CompletionLogRow := []
  task_dependencies : List DependencyRow := []
  last_automation_run_date : String := "1970-01-01"
  next_uuid : Nat := 0
  deriving Repr, DecidableEq

/-! ## database.py operations -/

/-- `add_task` (database.py): inserts a row whose `status` column is the
hard-coded literal `'pending'`; `date_completed` and `schedule_event_id` are
not in the column list, hence NULL.  Returns the new row's id. -/
def add_task (s : DBState) (td : TaskInput) : DBState × Nat :=
  let row : Task :=
    { id := td.id, description := td.description, status := "pending",
      date_added := td.date_added, deadline := td.deadline,
      priority := td.priority, category := td.category, notes := td.notes,
      date_completed := none, schedule_event_id := none,
      created_by_automation_id := td.created_by_automation_id,
      show_mode := td.show_mode, parent_task_id := td.parent_task_id }
  ({ s with tasks := s.tasks ++ [row] }, td.id)

/-- `update_task_status` (database.py): `UPDATE tasks SET status, date_completed WHERE id`. -/
def update_task_status (s : DBState) (task_id : Nat) (new_status : String)
    (date_completed : Option String) : DBState :=
  { s with tasks := s.tasks.map (fun t =>
      if t.id == task_id then
        { t with status := new_status, date_completed := date_completed }
      else t) }

/-- `update_task_details` (database.py): updates the listed columns, leaving
`status` and `date_completed` untouched. -/
def update_task_details (s : DBState) (task_id : Nat) (description : String)
    (priority category deadline notes : Option String) (show_mode : String) : DBState :=
  { s with tasks := s.tasks.map (fun t =>
      if t.id == task_id then
        { t with description := description, priority := priority,
                 category := category, deadline := deadline, notes := notes,
                 show_mode := show_mode }
      else t) }

/-- `link_task_to_event` (database.py): `UPDATE tasks SET schedule_event_id = ? WHERE id = ?`. -/
def link_task_to_event (s : DBState) (task_id event_id : Nat) : DBState :=
  { s with tasks := s.tasks.map (fun t =>
      if t.id == task_id then { t with schedule_event_id := some event_id } else t) }

/-- One round of SQLite's recursive `ON DELETE CASCADE` on
`tasks.parent_task_id`: adds the ids of tasks whose parent is already in the
set being deleted. -/
def cascade_step (tasks : List Task) (acc : List Nat) : List Nat :=
  acc ++ ((tasks.filter (fun t =>
      (match t.parent_task_id with
       | some p => acc.contains p
       | none => false) && !(acc.contains t.id))).map (fun t => t.id))

/-- Ids removed by `DELETE FROM tasks WHERE id = root` under the cascading
foreign key: the closure of `root` under the child relation (iterating once
per stored row reaches any descendant chain). -/
def cascade_ids (tasks : List Task) (root : Nat) : List Nat :=
  (cascade_step tasks)^[tasks.length] [root]

/-- `delete_task` (database.py) with `PRAGMA foreign_keys = ON`: the deleted
task and its descendants disappear, and the cascading keys on
`task_show_dates` and `task_completion_log` drop their rows.  The Dependency
rows (both directions) are dropped per the spec-modelled table. -/
def delete_task (s : DBState) (task_id : Nat) : DBState :=
  let doomed := cascade_ids s.tasks task_id
  { s with
    tasks := s.tasks.filter (fun t => !(doomed.contains t.id)),
    task_show_dates := s.task_show_dates.filter (fun r => !(doomed.contains r.task_id)),
    task_completion_log := s.task_completion_log.filter (fun r => !(doomed.contains r.task_id)),
    task_dependencies := s.task_dependencies.filter (fun r =>
      !(doomed.contains r.task_id) && !(doomed.contains r.depends_on_id)) }

/-- `add_task_show_date` (database.py): `INSERT OR IGNORE` on the primary key
`(task_id, show_date)`. -/
def add_task_show_date (s : DBState) (task_id : Nat) (show_date : String) : DBState :=
  if s.task_show_dates.any (fun r => r.task_id == task_id && r.show_date == show_date) then s
  else { s with task_show_dates := s.task_show_dates ++ [⟨task_id, show_date⟩] }

/-- `get_show_dates_for_task` (database.py). -/
def get_show_dates_for_task (s : DBState) (task_id : Nat) : List String :=
  (s.task_show_dates.filter (fun r => r.task_id == task_id)).map (fun r => r.show_date)

/-- `log_task_completion` (database.py): `REPLACE INTO` on the primary key
`(task_id, completion_date)` — any conflicting row is dropped, the new one
appended. -/
def log_task_completion (s : DBState) (task_id : Nat) (completion_date : String) : DBState :=
  { s with task_completion_log :=
      (s.task_completion_log.filter (fun r =>
        !(r.task_id == task_id && r.completion_date == completion_date)))
      ++ [⟨task_id, completion_date⟩] }

/-- `remove_task_completion_log` (database.py). -/
def remove_task_completion_log (s : DBState) (task_id : Nat) (completion_date : String) : DBState :=
  { s with task_completion_log :=
      s.task_completion_log.filter (fun r =>
        !(r.task_id == task_id && r.completion_date == completion_date)) }

/-- `is_task_logged_complete` (database.py). -/
def is_task_logged_complete (s : DBState) (task_id : Nat) (date_str : String) : Bool :=
  s.task_completion_log.any (fun r => r.task_id == task_id && r.completion_date == date_str)

/-- `add_schedule_event` (database.py): plain INSERT, returns the id. -/
def add_schedule_event (s : DBState) (ev : ScheduleEvent) : DBState × Nat :=
  ({ s with schedule_events := s.schedule_events ++ [ev] }, ev.id)

/-- `get_calendar_events_for_date` (database.py). -/
def get_calendar_events_for_date (s : DBState) (date : String) : List CalendarEvent :=
  s.calendar_events.filter (fun e => e.date == date)

/-- `get_pending_subtask_count` (database.py): `COUNT(*)` of pending rows with
the given `parent_task_id`. -/
def get_pending_subtask_count (s : DBState) (task_id : Nat) : Nat :=
  (s.tasks.filter (fun t => t.parent_task_id == some task_id && t.status == "pending")).length

/-- Modelled from the spec: `get_pending_dependency_count` is imported by
`task_manager_tab.py` from `app.core.database` but missing from the source
snapshot.  Per the spec it counts the task's Dependency edges whose
prerequisite task is still pending. -/
def get_pending_dependency_count (s : DBState) (task_id : Nat) : Nat :=
  (s.task_dependencies.filter (fun e => e.task_id == task_id &&
      s.tasks.any (fun t => t.id == e.depends_on_id && t.status == "pending"))).length

/-- Helper: whether the task with id `child` is recorded as a sub-task of
`parent`. -/
def is_sub_task_of (s : DBState) (child parent : Nat) : Bool :=
  s.tasks.any (fun t => t.id == child && t.parent_task_id == some parent)

/-- Modelled from the spec: `add_task_dependency` is called by
`dialogs_task.py` but missing from the source snapshot.  The spec:
`add_dependency(task_id, depends_on_id)` fails with `InvalidDependencyError`
if `depends_on_id == task_id`, or if `depends_on_id` is a sub-task of
`task_id`, or if `task_id` is a sub-task of `depends_on_id`; only these direct
checks are performed before the edge is inserted. -/
def add_task_dependency (s : DBState) (task_id depends_on_id : Nat) :
    Except String DBState :=
  if task_id == depends_on_id
      || is_sub_task_of s depends_on_id task_id
      || is_sub_task_of s task_id depends_on_id then
    Except.error "InvalidDependencyError"
  else
    Except.ok { s with task_dependencies := s.task_dependencies ++ [⟨task_id, depends_on_id⟩] }

/-- `get_tasks_by_deadline` (database.py): pending tasks whose deadline is the
given date. -/
def get_tasks_by_deadline (s : DBState) (date_str : String) : List Task :=
  s.tasks.filter (fun t => t.deadline == some date_str && t.status == "pending")

/-- `get_tasks_by_show_date` (database.py): tasks joined with
`task_show_dates` on the given date (no status filter). -/
def get_tasks_by_show_date (s : DBState) (date_str : String) : List Task :=
  s.tasks.filter (fun t =>
    s.task_show_dates.any (fun r => r.task_id == t.id && r.show_date == date_str))

/-- `get_tasks_always_pending` (database.py). -/
def get_tasks_always_pending (s : DBState) : List Task :=
  s.tasks.filter (fun t => t.show_mode == "always_pending" && t.status == "pending")

/-- `get_actions_for_automation` (database.py). -/
def get_actions_for_automation (s : DBState) (automation_id : Nat) : List AutomationAction :=
  s.automation_actions.filter (fun a => a.automation_id == automation_id)

/-! ## main.py: the automation engine -/

/-- Python truthiness of an optional string (`if not desc`, `if title and ...`):
`None` and the empty string are falsy. -/
def py_truthy (x : Option String) : Bool :=
  match x with
  | none => false
  | some v => !(v == "")

/-- Python `str.lower()`, character by character. -/
def py_lower (x : String) : String :=
  ⟨x.data.map Char.toLower⟩

/-- The `rules_map` lookup in `run_automations_for_event`: the dict
`rules_map` keeps the last rule per lowercased trigger title, then the event
title is lowercased and looked up. -/
def lookup_rule (rules : List Automation) (event_title : String) : Option Automation :=
  rules.reverse.find? (fun r => py_lower r.trigger_title == py_lower event_title)

/-- `_execute_automation_action` (main.py): runs one action for a date and
automation id, returning the id of the task or schedule event it
produced/reused, or `none`.

`ensure_task_link`: skip if `param1` is falsy; otherwise look for an existing
task with the same `created_by_automation_id`, the same description and
status `pending` and reuse it, else insert a fresh pending task; in both
branches ensure a show-date row for the event date.

`create_schedule_block`: if `param1`, `param2`, `param3` are all truthy,
insert a fresh schedule event for the date (color `'#6A1B9A'`). -/
def execute_automation_action (s : DBState) (action : AutomationAction)
    (date_str : String) (automation_id : Nat) : DBState × Option Nat :=
  if action.action_type == "ensure_task_link" then
    if py_truthy action.param1 then
      let desc := action.param1.getD ""
      match s.tasks.find? (fun t =>
          t.created_by_automation_id == some automation_id
          && t.description == desc && t.status == "pending") with
      | some t => (add_task_show_date s t.id date_str, some t.id)
      | none =>
        let new_id := s.next_uuid
        let s1 := { s with next_uuid := s.next_uuid + 1 }
        let p := add_task s1
          { id := new_id, description := desc, status := "pending",
            date_added := date_str, deadline := none,
            priority := action.param2, category := action.param3,
            notes := some "Auto-generated by automation rule.",
            created_by_automation_id := some automation_id,
            show_mode := "auto", parent_task_id := none }
        (add_task_show_date p.1 p.2 date_str, some p.2)
    else (s, none)
  else if action.action_type == "create_schedule_block" then
    if py_truthy action.param1 && py_truthy action.param2 && py_truthy action.param3 then
      let new_id := s.next_uuid
      let s1 := { s with next_uuid := s.next_uuid + 1 }
      let p := add_schedule_event s1
        { id := new_id, date := date_str, start_time := action.param2.getD "",
          end_time := action.param3.getD "", title := action.param1.getD "",
          color := some "#6A1B9A" }
      (p.1, some p.2)
    else (s, none)
  else (s, none)

/-- The action loops of `run_automations_for_event`: execute each action in
order, collecting the ids of produced items. -/
def run_actions (s : DBState) (actions : List AutomationAction)
    (date_str : String) (automation_id : Nat) : DBState × List Nat :=
  match actions with
  | [] => (s, [])
  | a :: rest =>
    let p := execute_automation_action s a date_str automation_id
    let q := run_actions p.1 rest date_str automation_id
    match p.2 with
    | some i => (q.1, i :: q.2)
    | none => q

/-- The cross-linking loops of `run_automations_for_event`: for every created
task id, for every created event id, `link_task_to_event(task_id, event_id)`. -/
def link_all (s : DBState) (task_ids event_ids : List Nat) : DBState :=
  task_ids.foldl (fun acc tid =>
    event_ids.foldl (fun acc2 eid => link_task_to_event acc2 tid eid) acc) s

/-- The body of `run_automations_for_event` once a rule has matched: if the
rule has actions, run its task actions, then its schedule actions, then link
every created task to every created event; return whether any action produced
something. -/
def run_matched_rule (s : DBState) (rule : Automation) (event_date_str : String) :
    DBState × Bool :=
  let actions := get_actions_for_automation s rule.id
  if actions.isEmpty then (s, false)
  else
    let task_actions := actions.filter (fun a => a.action_type == "ensure_task_link")
    let p := run_actions s task_actions event_date_str rule.id
    let schedule_actions := actions.filter (fun a => a.action_type == "create_schedule_block")
    let q := run_actions p.1 schedule_actions event_date_str rule.id
    let s3 := if !p.2.isEmpty && !q.2.isEmpty then link_all q.1 p.2 q.2 else q.1
    (s3, !p.2.isEmpty || !q.2.isEmpty)

/-- `run_automations_for_event` (main.py): look the event title up among the
rules case-insensitively and, on a match, run the rule.  Note: nothing in
this function consults any day-of-week information — the match is on the
title alone. -/
def run_automations_for_event (s : DBState) (event_title event_date_str : String) :
    DBState × Bool :=
  if event_title == "" then (s, false)
  else
    match lookup_rule s.automations event_title with
    | none => (s, false)
    | some rule => run_matched_rule s rule event_date_str

/-- Zero-padded two-digit day, as `%d` renders it. -/
def pad2 (n : Nat) : String :=
  if n < 10 then "0" ++ toString n else toString n

/-- The string `datetime.now().strftime("%Y-m-%d")` computed by
`_run_startup_automations` (main.py line 614): the format has a literal `m`
where `%m` was intended, so the month is dropped and the result is
`"<year>-m-<day>"`.  The month argument is therefore unused. -/
def format_buggy_today (year : Nat) (_month : Nat) (day : Nat) : String :=
  toString year ++ "-m-" ++ pad2 day

/-- `set_app_state('last_automation_run_date', v)`. -/
def set_last_run_date (s : DBState) (v : String) : DBState :=
  { s with last_automation_run_date := v }

/-- `_run_startup_automations` (main.py): if the persisted marker already
equals today's (malformed) string, skip; otherwise fetch the calendar events
whose stored date equals that string, run the rule engine for each, and set
the marker. -/
def run_startup_automations (s : DBState) (year month day : Nat) : DBState :=
  let today_str := format_buggy_today year month day
  if s.last_automation_run_date == today_str then s
  else
    let events_today := get_calendar_events_for_date s today_str
    if events_today.isEmpty then set_last_run_date s today_str
    else
      let s1 := events_today.foldl
        (fun acc ev => (run_automations_for_event acc ev.title today_str).1) s
      set_last_run_date s1 today_str

/-! ## UI status-change handlers -/

/-- The recurrence test in `_handle_today_task_completion`
(today_dashboard_tab.py): any show date, or a creating automation, or
`show_mode == 'always_pending'`. -/
def is_recurring (s : DBState) (t : Task) : Bool :=
  !(get_show_dates_for_task s t.id).isEmpty
    || t.created_by_automation_id.isSome
    || t.show_mode == "always_pending"

/-- `_handle_today_task_completion` (today_dashboard_tab.py): find the task;
for a recurring task write/remove the completion-log row for the dashboard
date; otherwise set the task's own status directly — no pending-sub-task or
pending-dependency check is made on this path. -/
def handle_today_task_completion (s : DBState) (task_id : Nat) (date_str : String)
    (is_checked : Bool) : DBState :=
  match s.tasks.find? (fun t => t.id == task_id) with
  | none => s
  | some task =>
    if is_recurring s task then
      if is_checked then log_task_completion s task_id date_str
      else remove_task_completion_log s task_id date_str
    else
      if is_checked then update_task_status s task_id "completed" (some date_str)
      else update_task_status s task_id "pending" none

/-- `_handle_task_status_change` (task_manager_tab.py): when checking a task
complete, first refuse (returning the untouched state and `true` for
"blocked") if it has pending sub-tasks, then if it has pending dependencies;
otherwise apply `update_task_status`.  Unchecking never blocks. -/
def handle_task_status_change (s : DBState) (task_id : Nat) (is_checked : Bool)
    (today : String) : DBState × Bool :=
  if is_checked then
    if 0 < get_pending_subtask_count s task_id then (s, true)
    else if 0 < get_pending_dependency_count s task_id then (s, true)
    else (update_task_status s task_id "completed" (some today), false)
  else (update_task_status s task_id "pending" none, false)

/-- First-occurrence key set of a Python dict built by assigning
`d[k] = v` over a list of keys in order. -/
def dict_keys : List Nat → List Nat
  | [] => []
  | x :: xs => x :: (dict_keys xs).filter (fun y => !(y == x))

/-- The `all_today_tasks` dict of `_refresh_today_dashboard`
(today_dashboard_tab.py), as its id set: deadline matches, then show-date
matches, then always-pending tasks, de-duplicated by task id. -/
def today_task_ids (s : DBState) (date_str : String) : List Nat :=
  dict_keys ((get_tasks_by_deadline s date_str
      ++ get_tasks_by_show_date s date_str
      ++ get_tasks_always_pending s).map (fun t => t.id))

/-- The due-on-date id set as the spec sentence for C9 words it: tasks whose
deadline equals the date (no status restriction), tasks having a ShowDate
equal to the date, and pending tasks with `show_mode = always_pending`. -/
def spec_due_ids (s : DBState) (date_str : String) : List Nat :=
  (s.tasks.filter (fun t =>
      t.deadline == some date_str
      || s.task_show_dates.any (fun r => r.task_id == t.id && r.show_date == date_str)
      || (t.show_mode == "always_pending" && t.status == "pending"))).map (fun t => t.id)

/-- The due-on-date id set as the code computes it, flattened: *pending* tasks
whose deadline equals the date, tasks having a ShowDate equal to the date
(any status), and pending always-pending tasks. -/
def amended_due_ids (s : DBState) (date_str : String) : List Nat :=
  (s.tasks.filter (fun t =>
      (t.deadline == some date_str && t.status == "pending")
      || s.task_show_dates.any (fun r => r.task_id == t.id && r.show_date == date_str)
      || (t.show_mode == "always_pending" && t.status == "pending"))).map (fun t => t.id)

/-! ## Concrete stores used by the claim instances -/

/-- One rule triggered by the title `Late Shift` with one task action; the
`automations` schema carries no day-of-week column, so nothing in the store
can restrict the rule to particular weekdays. -/
def c1state : DBState :=
  { automations := [⟨1, "Late Shift", "r"⟩],
    automation_actions := [⟨10, 1, "ensure_task_link", some "Prep shift", some "High", some "Work"⟩] }

/-- Fresh marker, one rule for `Late Shift` with a task action, and one
calendar event titled `Late Shift` dated `2024-06-10` in the canonical
`yyyy-MM-dd` format all writers of `calendar_events` use. -/
def c6state : DBState :=
  { automations := [⟨1, "Late Shift", "r"⟩],
    automation_actions := [⟨10, 1, "ensure_task_link", some "Prep shift", none, none⟩],
    calendar_events := [⟨5, "2024-06-10", "Late Shift", none, none⟩] }

/-- A pending non-recurring task (id 0) with one pending sub-task (id 1). -/
def c3state : DBState :=
  { tasks := [⟨0, "P", "pending", "2024-01-01", none, none, none, none, none, none, none, "auto", none⟩,
              ⟨1, "S", "pending", "2024-01-02", none, none, none, none, none, none, none, "auto", some 0⟩] }

/-- A single always-pending task, used for the occurrence-completion witness. -/
def c7task : Task :=
  ⟨0, "R", "pending", "2024-01-01", none, none, none, none, none, none, none, "always_pending", none⟩

/-- Store holding just `c7task`. -/
def c7state : DBState := { tasks := [c7task] }

/-- Empty store for the dependency-check witness. -/
def c8state : DBState := {}

/-- A completed task whose deadline is `2024-06-10` (no show dates, not
always-pending). -/
def c9state : DBState :=
  { tasks := [⟨1, "done", "completed", "2024-01-01", some "2024-06-10", none, none, none,
              some "2024-05-01", none, none, "auto", none⟩] }

/-! ## Claim theorems -/

/-- C10: every task row inserted through `add_task` has status `'pending'`:
the inserted statuses extend the old ones with exactly `"pending"`, the
caller-supplied `status` field is ignored entirely, and the other row
updater, `update_task_details`, never changes any status (statuses change
only through `update_task_status`). -/
theorem add_task_forces_pending_status (s : DBState) (td : TaskInput) :
    ((add_task s td).1.tasks.map Task.status = s.tasks.map Task.status ++ ["pending"])
    ∧ (∀ v : String, add_task s { td with status := v } = add_task s td)
    ∧ (∀ (task_id : Nat) (description : String) (priority category deadline notes : Option String)
        (show_mode : String),
        (update_task_details s task_id description priority category deadline notes
            show_mode).tasks.map Task.status = s.tasks.map Task.status) := by
  refine ⟨by simp [add_task], fun v => rfl, ?_⟩
  intro task_id description priority category deadline notes show_mode
  simp only [update_task_details, List.map_map]
  apply List.map_congr_left
  intro t _
  by_cases h : t.id = task_id <;> simp [h]

/-- C1: the `automations` schema stores no `trigger_day_of_week` mask and
`run_automations_for_event` consults no weekday information, so a rule whose
title matches fires even for an event dated on a Saturday: here the rule for
`Late Shift` runs (reports `true`) on `2024-06-15`, a Saturday, and creates
its task. -/
theorem run_fires_on_saturday_event :
    (run_automations_for_event c1state "Late Shift" "2024-06-15").2 = true
    ∧ ((run_automations_for_event c1state "Late Shift" "2024-06-15").1.tasks.map
        Task.description) = ["Prep shift"] := by
  constructor <;> rfl

/-- C6: `_run_startup_automations` formats today with `"%Y-m-%d"` (a literal
`m`), so on 2024-06-10 it queries calendar events dated `"2024-m-10"`: the
store holds an event titled `Late Shift` dated `"2024-06-10"` and a rule
matching that title, yet the sweep creates no task and persists the marker
`"2024-m-10"`. -/
theorem startup_sweep_misses_today_events :
    (run_startup_automations c6state 2024 6 10).tasks = []
    ∧ (run_startup_automations c6state 2024 6 10).last_automation_run_date = "2024-m-10"
    ∧ get_calendar_events_for_date c6state "2024-06-10"
        = [⟨5, "2024-06-10", "Late Shift", none, none⟩]
    ∧ lookup_rule c6state.automations "Late Shift" = some ⟨1, "Late Shift", "r"⟩ := by
  refine ⟨rfl, rfl, rfl, rfl⟩

/-- C3 (counterexample): the Today-dashboard entry point
`_handle_today_task_completion` performs no pending-sub-task or
pending-dependency check: task 0 has one pending sub-task, yet checking it
complete on the dashboard sets its status to `completed`. -/
theorem today_completion_ignores_pending_subtask :
    get_pending_subtask_count c3state 0 = 1
    ∧ ((handle_today_task_completion c3state 0 "2024-06-10" true).tasks.map
        (fun t => (t.id, t.status))) = [(0, "completed"), (1, "pending")] := by
  constructor <;> rfl

/-- C3 (amended): only the Task Manager tab's status-change entry point
enforces completion blocking: there, checking a task complete while it has a
pending sub-task or a pending dependency is refused and the store is
returned unchanged. -/
theorem task_manager_blocks_completion (s : DBState) (task_id : Nat) (today : String)
    (h : 0 < get_pending_subtask_count s task_id
        ∨ 0 < get_pending_dependency_count s task_id) :
    handle_task_status_change s task_id true today = (s, true) := by
  unfold handle_task_status_change
  simp only [if_true]
  by_cases h1 : 0 < get_pending_subtask_count s task_id
  · rw [if_pos h1]
  · rw [if_neg h1]
    have h2 : 0 < get_pending_dependency_count s task_id := by
      rcases h with h | h
      · exact absurd h h1
      · exact h
    rw [if_pos h2]

/-- Witness for `task_manager_blocks_completion` at task 0 of `c3state`. -/
theorem task_manager_blocks_completion_witness :
    (0 < get_pending_subtask_count c3state 0 ∨ 0 < get_pending_dependency_count c3state 0)
    ∧ handle_task_status_change c3state 0 true "2024-06-10" = (c3state, true) :=
  ⟨Or.inl (by decide),
   task_manager_blocks_completion c3state 0 "2024-06-10" (Or.inl (by decide))⟩

/-- C8: adding a dependency fails with `InvalidDependencyError` (inserting no
edge) exactly when the prerequisite is the task itself, the prerequisite is a
sub-task of the depending task, or the depending task is a direct sub-task of
the prerequisite; in every other case — including ones that close a longer
cycle — the edge is inserted. -/
theorem add_task_dependency_direct_checks (s : DBState) (task_id depends_on_id : Nat) :
    ((task_id = depends_on_id
        ∨ is_sub_task_of s depends_on_id task_id = true
        ∨ is_sub_task_of s task_id depends_on_id = true) →
      add_task_dependency s task_id depends_on_id = Except.error "InvalidDependencyError")
    ∧ ((task_id ≠ depends_on_id
        ∧ is_sub_task_of s depends_on_id task_id = false
        ∧ is_sub_task_of s task_id depends_on_id = false) →
      add_task_dependency s task_id depends_on_id =
        Except.ok { s with task_dependencies :=
          s.task_dependencies ++ [⟨task_id, depends_on_id⟩] }) := by
  constructor
  · intro h
    unfold add_task_dependency
    have hcond : (task_id == depends_on_id
        || is_sub_task_of s depends_on_id task_id
        || is_sub_task_of s task_id depends_on_id) = true := by
      rcases h with h | h | h <;> simp [h]
    rw [if_pos hcond]
  · rintro ⟨h1, h2, h3⟩
    unfold add_task_dependency
    have hcond : (task_id == depends_on_id
        || is_sub_task_of s depends_on_id task_id
        || is_sub_task_of s task_id depends_on_id) = false := by
      simp [h1, h2, h3]
    rw [hcond]
    simp

/-- Witness for `add_task_dependency_direct_checks`: in the empty store a
self-dependency on task 1 is rejected. -/
theorem add_task_dependency_direct_checks_witness :
    (1 = 1 ∨ is_sub_task_of c8state 1 1 = true ∨ is_sub_task_of c8state 1 1 = true)
    ∧ add_task_dependency c8state 1 1 = Except.error "InvalidDependencyError" :=
  ⟨Or.inl rfl, (add_task_dependency_direct_checks c8state 1 1).1 (Or.inl rfl)⟩

/-- C7: for a recurring task (one with a show date, or automation-created, or
always-pending), the dashboard completion handler writes (checked) or removes
(unchecked) exactly the completion-log row `(task_id, date)` and leaves every
task row — in particular `status` and `date_completed` — and every other
table unchanged. -/
theorem occurrence_completion_touches_only_log (s : DBState) (task_id : Nat)
    (date_str : String) (checked : Bool) (t : Task)
    (hf : s.tasks.find? (fun x => x.id == task_id) = some t)
    (hr : is_recurring s t = true) :
    (handle_today_task_completion s task_id date_str checked).tasks = s.tasks
    ∧ (handle_today_task_completion s task_id date_str checked).task_completion_log =
        (if checked then
          (s.task_completion_log.filter (fun r =>
            !(r.task_id == task_id && r.completion_date == date_str))) ++ [⟨task_id, date_str⟩]
        else
          s.task_completion_log.filter (fun r =>
            !(r.task_id == task_id && r.completion_date == date_str)))
    ∧ (handle_today_task_completion s task_id date_str checked).task_show_dates
        = s.task_show_dates
    ∧ (handle_today_task_completion s task_id date_str checked).schedule_events
        = s.schedule_events
    ∧ (handle_today_task_completion s task_id date_str checked).task_dependencies
        = s.task_dependencies := by
  simp only [handle_today_task_completion, hf, hr, if_true]
  cases checked <;>
    simp [log_task_completion, remove_task_completion_log]

/-- Witness for `occurrence_completion_touches_only_log` on the
always-pending task of `c7state`, checked complete for 2024-06-10. -/
theorem occurrence_completion_touches_only_log_witness :
    (c7state.tasks.find? (fun x => x.id == 0) = some c7task
      ∧ is_recurring c7state c7task = true)
    ∧ (handle_today_task_completion c7state 0 "2024-06-10" true).tasks = c7state.tasks
    ∧ (handle_today_task_completion c7state 0 "2024-06-10" true).task_completion_log =
        (if true then
          (c7state.task_completion_log.filter (fun r =>
            !(r.task_id == 0 && r.completion_date == "2024-06-10"))) ++ [⟨0, "2024-06-10"⟩]
        else
          c7state.task_completion_log.filter (fun r =>
            !(r.task_id == 0 && r.completion_date == "2024-06-10")))
    ∧ (handle_today_task_completion c7state 0 "2024-06-10" true).task_show_dates
        = c7state.task_show_dates
    ∧ (handle_today_task_completion c7state 0 "2024-06-10" true).schedule_events
        = c7state.schedule_events
    ∧ (handle_today_task_completion c7state 0 "2024-06-10" true).task_dependencies
        = c7state.task_dependencies :=
  ⟨⟨by decide, by decide⟩,
   occurrence_completion_touches_only_log c7state 0 "2024-06-10" true c7task
     (by decide) (by decide)⟩

lemma mem_dict_keys (l : List Nat) (x : Nat) : x ∈ dict_keys l ↔ x ∈ l := by
  induction l with
  | nil => simp [dict_keys]
  | cons a xs ih =>
    simp only [dict_keys, List.mem_cons, List.mem_filter, Bool.not_eq_eq_eq_not,
      Bool.not_true, beq_eq_false_iff_ne, ne_eq]
    constructor
    · rintro (rfl | ⟨hx, _⟩)
      · exact Or.inl rfl
      · exact Or.inr (ih.mp hx)
    · rintro (rfl | hx)
      · exact Or.inl rfl
      · by_cases hxa : x = a
        · exact Or.inl hxa
        · exact Or.inr ⟨ih.mpr hx, hxa⟩

lemma nodup_dict_keys (l : List Nat) : (dict_keys l).Nodup := by
  induction l with
  | nil => simp [dict_keys]
  | cons a xs ih =>
    rw [dict_keys, List.nodup_cons]
    refine ⟨fun hmem => ?_, List.Nodup.filter _ ih⟩
    have := (List.mem_filter.mp hmem).2
    simp at this

/-- C9 (counterexample): the spec's union includes every task whose deadline
is the date, but the code's deadline component keeps only pending tasks: the
completed task of `c9state` with deadline `2024-06-10` is in the spec union
and absent from the computed dashboard set. -/
theorem today_tasks_excludes_completed_deadline :
    1 ∈ spec_due_ids c9state "2024-06-10"
    ∧ 1 ∉ today_task_ids c9state "2024-06-10" := by
  constructor
  · decide
  · decide

/-- C9 (amended): the dashboard's due-on-date id set equals the union of
*pending* tasks with that deadline, tasks with a matching show date, and
pending always-pending tasks, each id appearing at most once. -/
theorem today_task_ids_characterization (s : DBState) (date_str : String) :
    (∀ x, x ∈ today_task_ids s date_str ↔ x ∈ amended_due_ids s date_str)
    ∧ (today_task_ids s date_str).Nodup := by
  refine ⟨fun x => ?_, nodup_dict_keys _⟩
  rw [today_task_ids, mem_dict_keys]
  simp only [amended_due_ids, get_tasks_by_deadline, get_tasks_by_show_date,
    get_tasks_always_pending, List.mem_map, List.mem_append, List.mem_filter,
    Bool.or_eq_true, Bool.and_eq_true]
  constructor
  · rintro ⟨t, ht, rfl⟩
    exact ⟨t, by tauto, rfl⟩
  · rintro ⟨t, ht, rfl⟩
    exact ⟨t, by tauto, rfl⟩

/-! ## C4: cross-linking -/

/-- One rule with one task action and two schedule actions; running it from
the empty store creates task 0 and schedule events 1 and 2. -/
def c4state : DBState :=
  { automations := [⟨1, "R", "r"⟩],
    automation_actions := [⟨10, 1, "ensure_task_link", some "T", none, none⟩,
      ⟨11, 1, "create_schedule_block", some "S1", some "14:00", some "15:00"⟩,
      ⟨12, 1, "create_schedule_block", some "S2", some "15:00", some "16:00"⟩] }

/-- A store with one task (id 1), for the cross-link witness. -/
def c4wit : DBState :=
  { tasks := [⟨1, "W", "pending", "2024-01-01", none, none, none, none, none, none, none,
      "auto", none⟩] }

/-- C4 (counterexample): from `c4state` the run produces schedule events 1
and 2 and one automation task, but `schedule_event_id` is a single column, so
the task ends linked to event 2 only — no task is linked to event 1, refuting
the full cross-product. -/
theorem cross_link_not_full_product :
    ((run_automations_for_event c4state "R" "2024-06-10").1.schedule_events.map
      (fun e => e.id)) = [1, 2]
    ∧ ((run_automations_for_event c4state "R" "2024-06-10").1.tasks.map
      (fun t => (t.created_by_automation_id, t.schedule_event_id))) = [(some 1, some 2)]
    ∧ ((run_automations_for_event c4state "R" "2024-06-10").1.tasks.all
      (fun t => !(t.schedule_event_id == some 1))) = true := by
  refine ⟨rfl, rfl, rfl⟩

lemma link_fold_tasks (tid : Nat) :
    ∀ (event_ids : List Nat) (h : event_ids ≠ []) (s : DBState),
    (event_ids.foldl (fun acc eid => link_task_to_event acc tid eid) s).tasks
      = s.tasks.map (fun t =>
          if t.id = tid then { t with schedule_event_id := some (event_ids.getLast h) }
          else t)
  | [], h, _ => absurd rfl h
  | [e], _, s => by
    simp only [List.foldl_cons, List.foldl_nil, link_task_to_event, List.getLast_singleton]
    apply List.map_congr_left
    intro t _
    by_cases h1 : t.id = tid <;> simp [h1]
  | e1 :: e2 :: rest, _, s => by
    have hne : e2 :: rest ≠ [] := by simp
    have ih := link_fold_tasks tid (e2 :: rest) hne (link_task_to_event s tid e1)
    simp only [List.foldl_cons] at ih ⊢
    rw [ih]
    simp only [link_task_to_event, List.map_map]
    apply List.map_congr_left
    intro t _
    by_cases h1 : t.id = tid <;>
      simp [h1, Function.comp, List.getLast_cons hne]

/-- C4 (amended): after the cross-linking loops, every task whose id was
produced by the task actions carries the id of the *last* produced schedule
event in `schedule_event_id` (each earlier link is overwritten); all other
tasks are untouched. -/
theorem link_all_links_to_last_event (s : DBState) (task_ids event_ids : List Nat)
    (h : event_ids ≠ []) :
    (link_all s task_ids event_ids).tasks = s.tasks.map (fun t =>
      if t.id ∈ task_ids then { t with schedule_event_id := some (event_ids.getLast h) }
      else t) := by
  induction task_ids generalizing s with
  | nil => simp [link_all]
  | cons tid rest ih =>
    have hstep : link_all s (tid :: rest) event_ids
        = link_all (event_ids.foldl (fun acc eid => link_task_to_event acc tid eid) s)
            rest event_ids := rfl
    rw [hstep, ih, link_fold_tasks tid event_ids h, List.map_map]
    apply List.map_congr_left
    intro t _
    by_cases h1 : t.id = tid <;> by_cases h2 : t.id ∈ rest <;>
      simp [h1, h2, Function.comp]

/-- Witness for `link_all_links_to_last_event`: linking task 1 to events 7
then 8 leaves it linked to 8. -/
theorem link_all_links_to_last_event_witness :
    (([7, 8] : List Nat) ≠ [])
    ∧ (link_all c4wit [1] [7, 8]).tasks = c4wit.tasks.map (fun t =>
        if t.id ∈ [1] then
          { t with schedule_event_id := some (([7, 8] : List Nat).getLast (by decide)) }
        else t) :=
  ⟨by decide, link_all_links_to_last_event c4wit [1] [7, 8] (by decide)⟩

/-! ## C5: cascading delete -/

lemma bool_eq_of_iff {x y : Bool} (h : x = true ↔ y = true) : x = y := by
  cases x <;> cases y <;> simp_all

lemma contains_iff_mem (l : List Nat) (x : Nat) : l.contains x = true ↔ x ∈ l := by
  simp [List.contains]

lemma cascade_first_step (s : DBState) (p a b : Task)
    (ha : a ∈ s.tasks) (hb : b ∈ s.tasks)
    (hap : a.parent_task_id = some p.id) (hbp : b.parent_task_id = some p.id)
    (hpa : a.id ≠ p.id) (hpb : b.id ≠ p.id)
    (hch : ∀ t ∈ s.tasks, t.parent_task_id = some p.id → t.id = a.id ∨ t.id = b.id) :
    ∀ x, x ∈ cascade_step s.tasks [p.id] ↔ (x = p.id ∨ x = a.id ∨ x = b.id) := by
  intro x
  simp only [cascade_step, List.mem_append, List.mem_cons, List.not_mem_nil, or_false,
    List.mem_map, List.mem_filter]
  constructor
  · rintro (rfl | ⟨t, ⟨htm, hpredt⟩, rfl⟩)
    · exact Or.inl rfl
    · rw [Bool.and_eq_true] at hpredt
      obtain ⟨h1, _⟩ := hpredt
      cases hpt : t.parent_task_id with
      | none => rw [hpt] at h1; simp at h1
      | some q =>
        rw [hpt] at h1
        have hq : q = p.id := by
          have := (contains_iff_mem [p.id] q).mp h1
          simpa using this
        subst hq
        rcases hch t htm hpt with h | h
        · exact Or.inr (Or.inl h)
        · exact Or.inr (Or.inr h)
  · rintro (rfl | rfl | rfl)
    · exact Or.inl rfl
    · refine Or.inr ⟨a, ⟨ha, ?_⟩, rfl⟩
      rw [hap]
      simp [hpa]
    · refine Or.inr ⟨b, ⟨hb, ?_⟩, rfl⟩
      rw [hbp]
      simp [hpb]

lemma cascade_closed (s : DBState) (p a b : Task)
    (hch : ∀ t ∈ s.tasks, t.parent_task_id = some p.id → t.id = a.id ∨ t.id = b.id)
    (hna : ∀ t ∈ s.tasks, t.parent_task_id ≠ some a.id)
    (hnb : ∀ t ∈ s.tasks, t.parent_task_id ≠ some b.id)
    (hS1 : ∀ x, x ∈ cascade_step s.tasks [p.id] ↔ (x = p.id ∨ x = a.id ∨ x = b.id)) :
    cascade_step s.tasks (cascade_step s.tasks [p.id]) = cascade_step s.tasks [p.id] := by
  have hfilter : s.tasks.filter (fun t =>
      (match t.parent_task_id with
       | some q => (cascade_step s.tasks [p.id]).contains q
       | none => false) && !((cascade_step s.tasks [p.id]).contains t.id)) = [] := by
    rw [List.filter_eq_nil_iff]
    intro t htm hcontra
    rw [Bool.and_eq_true] at hcontra
    obtain ⟨h1, h2⟩ := hcontra
    cases hpt : t.parent_task_id with
    | none => rw [hpt] at h1; simp at h1
    | some q =>
      rw [hpt] at h1
      have hq3 := (hS1 q).mp ((contains_iff_mem _ q).mp h1)
      have hnid : t.id ∉ cascade_step s.tasks [p.id] := by
        intro hmem
        rw [(contains_iff_mem _ t.id).mpr hmem] at h2
        simp at h2
      rcases hq3 with rfl | rfl | rfl
      · rcases hch t htm hpt with h | h <;>
          exact hnid ((hS1 t.id).mpr (by simp [h]))
      · exact hna t htm hpt
      · exact hnb t htm hpt
  conv_lhs => rw [cascade_step, hfilter]
  simp

/-- C5: deleting a task `p` whose only sub-tasks are `a` and `b` (themselves
childless) removes exactly the task rows, show-date rows, completion-log rows
and dependency rows (either endpoint) belonging to `p`, `a` or `b`, and
changes nothing else in the store. -/
theorem delete_task_cascades_exactly (s : DBState) (p a b : Task)
    (hp : p ∈ s.tasks) (ha : a ∈ s.tasks) (hb : b ∈ s.tasks)
    (hap : a.parent_task_id = some p.id) (hbp : b.parent_task_id = some p.id)
    (hpa : a.id ≠ p.id) (hpb : b.id ≠ p.id)
    (hch : ∀ t ∈ s.tasks, t.parent_task_id = some p.id → t.id = a.id ∨ t.id = b.id)
    (hna : ∀ t ∈ s.tasks, t.parent_task_id ≠ some a.id)
    (hnb : ∀ t ∈ s.tasks, t.parent_task_id ≠ some b.id) :
    (delete_task s p.id).tasks
        = s.tasks.filter (fun t => !(t.id == p.id || t.id == a.id || t.id == b.id))
    ∧ (delete_task s p.id).task_show_dates
        = s.task_show_dates.filter (fun r =>
            !(r.task_id == p.id || r.task_id == a.id || r.task_id == b.id))
    ∧ (delete_task s p.id).task_completion_log
        = s.task_completion_log.filter (fun r =>
            !(r.task_id == p.id || r.task_id == a.id || r.task_id == b.id))
    ∧ (delete_task s p.id).task_dependencies
        = s.task_dependencies.filter (fun r =>
            !(r.task_id == p.id || r.task_id == a.id || r.task_id == b.id
              || r.depends_on_id == p.id || r.depends_on_id == a.id
              || r.depends_on_id == b.id))
    ∧ (delete_task s p.id).schedule_events = s.schedule_events
    ∧ (delete_task s p.id).calendar_events = s.calendar_events
    ∧ (delete_task s p.id).automations = s.automations
    ∧ (delete_task s p.id).automation_actions = s.automation_actions := by
  have hS1 := cascade_first_step s p a b ha hb hap hbp hpa hpb hch
  have hfix := cascade_closed s p a b hch hna hnb hS1
  have hlen : s.tasks.length - 1 + 1 = s.tasks.length :=
    Nat.succ_pred_eq_of_pos (List.length_pos.mpr (List.ne_nil_of_mem hp))
  have hiter : cascade_ids s.tasks p.id = cascade_step s.tasks [p.id] := by
    rw [cascade_ids, ← hlen, Function.iterate_succ_apply]
    exact Function.iterate_fixed hfix _
  have hcontains : ∀ x, (cascade_ids s.tasks p.id).contains x
      = (x == p.id || x == a.id || x == b.id) := by
    intro x
    apply bool_eq_of_iff
    rw [contains_iff_mem, hiter, hS1 x]
    simp [or_assoc]
  have hdemorgan : ∀ (x1 x2 x3 y1 y2 y3 : Bool),
      (!(x1 || x2 || x3) && !(y1 || y2 || y3)) = !(x1 || x2 || x3 || y1 || y2 || y3) := by
    decide
  refine ⟨?_, ?_, ?_, ?_, rfl, rfl, rfl, rfl⟩
  · show s.tasks.filter _ = s.tasks.filter _
    apply List.filter_congr
    intro t _
    rw [hcontains]
  · show s.task_show_dates.filter _ = s.task_show_dates.filter _
    apply List.filter_congr
    intro r _
    rw [hcontains]
  · show s.task_completion_log.filter _ = s.task_completion_log.filter _
    apply List.filter_congr
    intro r _
    rw [hcontains]
  · show s.task_dependencies.filter _ = s.task_dependencies.filter _
    apply List.filter_congr
    intro r _
    rw [hcontains, hcontains, hdemorgan]

/-- Parent task used by the delete witness. -/
def c5p : Task :=
  ⟨0, "P", "pending", "2024-01-01", none, none, none, none, none, none, none, "auto", none⟩

/-- First sub-task used by the delete witness. -/
def c5a : Task :=
  ⟨1, "A", "pending", "2024-01-02", none, none, none, none, none, none, none, "auto", some 0⟩

/-- Second sub-task used by the delete witness. -/
def c5b : Task :=
  ⟨2, "B", "pending", "2024-01-03", none, none, none, none, none, none, none, "auto", some 0⟩

/-- Unrelated task used by the delete witness. -/
def c5c : Task :=
  ⟨3, "C", "pending", "2024-01-04", none, none, none, none, none, none, none, "auto", none⟩

/-- Store for the delete witness: parent 0 with sub-tasks 1 and 2, bystander
task 3, rows in every cascading table for both doomed and surviving tasks. -/
def c5state : DBState :=
  { tasks := [c5p, c5a, c5b, c5c],
    schedule_events := [⟨9, "2024-06-10", "09:00", "10:00", "SE", none⟩],
    task_show_dates := [⟨0, "2024-06-10"⟩, ⟨1, "2024-06-11"⟩, ⟨3, "2024-06-12"⟩],
    task_completion_log := [⟨2, "2024-06-01"⟩, ⟨3, "2024-06-02"⟩],
    task_dependencies := [⟨3, 0⟩, ⟨1, 3⟩, ⟨3, 3⟩] }

/-- Witness for `delete_task_cascades_exactly` on `c5state`. -/
theorem delete_task_cascades_exactly_witness :
    (c5p ∈ c5state.tasks ∧ c5a ∈ c5state.tasks ∧ c5b ∈ c5state.tasks
      ∧ c5a.parent_task_id = some c5p.id ∧ c5b.parent_task_id = some c5p.id
      ∧ c5a.id ≠ c5p.id ∧ c5b.id ≠ c5p.id
      ∧ (∀ t ∈ c5state.tasks, t.parent_task_id = some c5p.id → t.id = c5a.id ∨ t.id = c5b.id)
      ∧ (∀ t ∈ c5state.tasks, t.parent_task_id ≠ some c5a.id)
      ∧ (∀ t ∈ c5state.tasks, t.parent_task_id ≠ some c5b.id))
    ∧ ((delete_task c5state c5p.id).tasks
        = c5state.tasks.filter (fun t => !(t.id == c5p.id || t.id == c5a.id || t.id == c5b.id))
      ∧ (delete_task c5state c5p.id).task_show_dates
        = c5state.task_show_dates.filter (fun r =>
            !(r.task_id == c5p.id || r.task_id == c5a.id || r.task_id == c5b.id))
      ∧ (delete_task c5state c5p.id).task_completion_log
        = c5state.task_completion_log.filter (fun r =>
            !(r.task_id == c5p.id || r.task_id == c5a.id || r.task_id == c5b.id))
      ∧ (delete_task c5state c5p.id).task_dependencies
        = c5state.task_dependencies.filter (fun r =>
            !(r.task_id == c5p.id || r.task_id == c5a.id || r.task_id == c5b.id
              || r.depends_on_id == c5p.id || r.depends_on_id == c5a.id
              || r.depends_on_id == c5b.id))
      ∧ (delete_task c5state c5p.id).schedule_events = c5state.schedule_events
      ∧ (delete_task c5state c5p.id).calendar_events = c5state.calendar_events
      ∧ (delete_task c5state c5p.id).automations = c5state.automations
      ∧ (delete_task c5state c5p.id).automation_actions = c5state.automation_actions) :=
  ⟨⟨by decide, by decide, by decide, by decide, by decide, by decide, by decide,
    by decide, by decide, by decide⟩,
   delete_task_cascades_exactly c5state c5p c5a c5b (by decide) (by decide) (by decide)
     (by decide) (by decide) (by decide) (by decide) (by decide) (by decide) (by decide)⟩

/-! ## C2: idempotence of a double rule run -/

/-- Number of stored tasks created by automation `aid` carrying description
`desc` (any status). -/
def automation_task_count (s : DBState) (aid : Nat) (desc : String) : Nat :=
  (s.tasks.filter (fun t =>
    t.created_by_automation_id == some aid && t.description == desc)).length

/-- Number of stored *pending* tasks created by automation `aid` carrying
description `desc` — the set the ensure-task search looks through. -/
def automation_pending_task_count (s : DBState) (aid : Nat) (desc : String) : Nat :=
  (s.tasks.filter (fun t =>
    t.created_by_automation_id == some aid && t.description == desc
      && t.status == "pending")).length

/-- The descriptions of the task actions that actually run: `ensure_task_link`
actions whose `param1` is truthy. -/
def ensure_descs (actions : List AutomationAction) : List String :=
  actions.filterMap (fun x =>
    if x.action_type == "ensure_task_link" && py_truthy x.param1 then x.param1 else none)

/-- The number of schedule actions that actually create a block: all three
params truthy. -/
def valid_schedule_count (actions : List AutomationAction) : Nat :=
  (actions.filter (fun x => x.action_type == "create_schedule_block"
      && py_truthy x.param1 && py_truthy x.param2 && py_truthy x.param3)).length

lemma add_task_show_date_tasks_eq (s : DBState) (tid : Nat) (d : String) :
    (add_task_show_date s tid d).tasks = s.tasks := by
  unfold add_task_show_date
  split <;> rfl

lemma add_task_show_date_keeps (s : DBState) (tid : Nat) (d : String) :
    (add_task_show_date s tid d).schedule_events = s.schedule_events
    ∧ (add_task_show_date s tid d).automations = s.automations
    ∧ (add_task_show_date s tid d).automation_actions = s.automation_actions := by
  unfold add_task_show_date
  split <;> exact ⟨rfl, rfl, rfl⟩

lemma filter_length_map_eq {α : Type} (f : α → α) (p : α → Bool) (l : List α)
    (hpf : ∀ t, p (f t) = p t) : ((l.map f).filter p).length = (l.filter p).length := by
  induction l with
  | nil => rfl
  | cons a l ih =>
    simp only [List.map_cons, List.filter_cons, hpf a]
    cases h : p a <;> simp [ih]

lemma counts_congr (s s2 : DBState) (aid : Nat) (h : s2.tasks = s.tasks) :
    (∀ desc, automation_task_count s2 aid desc = automation_task_count s aid desc)
    ∧ (∀ desc, automation_pending_task_count s2 aid desc
        = automation_pending_task_count s aid desc) := by
  unfold automation_task_count automation_pending_task_count
  rw [h]
  exact ⟨fun _ => rfl, fun _ => rfl⟩

lemma link_task_to_event_counts (s : DBState) (tid eid aid : Nat) (desc : String) :
    automation_task_count (link_task_to_event s tid eid) aid desc
      = automation_task_count s aid desc
    ∧ automation_pending_task_count (link_task_to_event s tid eid) aid desc
      = automation_pending_task_count s aid desc := by
  unfold automation_task_count automation_pending_task_count link_task_to_event
  constructor <;>
    · apply filter_length_map_eq
      intro t
      by_cases h : t.id = tid <;> simp [h]

lemma link_fold_effect (tid aid : Nat) (desc : String) :
    ∀ (eids : List Nat) (s : DBState),
    (eids.foldl (fun acc eid => link_task_to_event acc tid eid) s).schedule_events
        = s.schedule_events
    ∧ (eids.foldl (fun acc eid => link_task_to_event acc tid eid) s).automations
        = s.automations
    ∧ (eids.foldl (fun acc eid => link_task_to_event acc tid eid) s).automation_actions
        = s.automation_actions
    ∧ automation_task_count (eids.foldl (fun acc eid => link_task_to_event acc tid eid) s)
        aid desc = automation_task_count s aid desc
    ∧ automation_pending_task_count
        (eids.foldl (fun acc eid => link_task_to_event acc tid eid) s) aid desc
        = automation_pending_task_count s aid desc
  | [], _ => ⟨rfl, rfl, rfl, rfl, rfl⟩
  | e :: rest, s => by
    have ih := link_fold_effect tid aid desc rest (link_task_to_event s tid e)
    have hl := link_task_to_event_counts s tid e aid desc
    simp only [List.foldl_cons]
    exact ⟨ih.1, ih.2.1, ih.2.2.1,
      ih.2.2.2.1.trans hl.1, ih.2.2.2.2.trans hl.2⟩

lemma link_all_effect (aid : Nat) (desc : String) :
    ∀ (tids eids : List Nat) (s : DBState),
    (link_all s tids eids).schedule_events = s.schedule_events
    ∧ (link_all s tids eids).automations = s.automations
    ∧ (link_all s tids eids).automation_actions = s.automation_actions
    ∧ automation_task_count (link_all s tids eids) aid desc
        = automation_task_count s aid desc
    ∧ automation_pending_task_count (link_all s tids eids) aid desc
        = automation_pending_task_count s aid desc
  | [], _, _ => ⟨rfl, rfl, rfl, rfl, rfl⟩
  | tid :: rest, eids, s => by
    have hinner := link_fold_effect tid aid desc eids s
    have ih := link_all_effect aid desc rest eids
      (eids.foldl (fun acc eid => link_task_to_event acc tid eid) s)
    have hstep : link_all s (tid :: rest) eids
        = link_all (eids.foldl (fun acc eid => link_task_to_event acc tid eid) s)
            rest eids := rfl
    rw [hstep]
    exact ⟨ih.1.trans hinner.1, ih.2.1.trans hinner.2.1, ih.2.2.1.trans hinner.2.2.1,
      ih.2.2.2.1.trans hinner.2.2.2.1, ih.2.2.2.2.trans hinner.2.2.2.2⟩

lemma ensure_descs_filter (actions : List AutomationAction) :
    ensure_descs (actions.filter (fun a => a.action_type == "ensure_task_link"))
      = ensure_descs actions := by
  induction actions with
  | nil => rfl
  | cons a rest ih =>
    by_cases h : a.action_type == "ensure_task_link"
    · simp only [List.filter_cons, h, if_true, ensure_descs, List.filterMap_cons, h,
        Bool.true_and] at ih ⊢
      cases hp : py_truthy a.param1 <;> simp [ih, ensure_descs] at ih ⊢ <;> rw [ih]
    · have hb : (a.action_type == "ensure_task_link") = false := by
        cases hx : (a.action_type == "ensure_task_link")
        · rfl
        · exact absurd hx h
      simp only [List.filter_cons, hb, Bool.false_eq_true, if_false, ensure_descs,
        List.filterMap_cons, Bool.false_and] at ih ⊢
      simpa using ih

lemma valid_schedule_count_filter (actions : List AutomationAction) :
    valid_schedule_count (actions.filter (fun a => a.action_type == "create_schedule_block"))
      = valid_schedule_count actions := by
  induction actions with
  | nil => rfl
  | cons a rest ih =>
    by_cases h : a.action_type == "create_schedule_block"
    · simp only [List.filter_cons, h, if_true, valid_schedule_count, List.filter_cons, h,
        Bool.true_and] at ih ⊢
      cases hp : (py_truthy a.param1 && py_truthy a.param2 && py_truthy a.param3) <;>
        simp_all [valid_schedule_count, Bool.and_assoc]
    · have hb : (a.action_type == "create_schedule_block") = false := by
        cases hx : (a.action_type == "create_schedule_block")
        · rfl
        · exact absurd hx h
      simp only [List.filter_cons, hb, Bool.false_eq_true, if_false, valid_schedule_count,
        Bool.false_and] at ih ⊢
      simpa [valid_schedule_count, hb] using ih

lemma filter_singleton_length {α : Type} (p : α → Bool) (a : α) :
    ([a].filter p).length = if p a then 1 else 0 := by
  cases h : p a <;> simp [List.filter, h]

lemma count_append_row (s s2 : DBState) (aid : Nat) (row : Task)
    (h : s2.tasks = s.tasks ++ [row]) (desc : String) :
    automation_task_count s2 aid desc
      = automation_task_count s aid desc
        + (if (row.created_by_automation_id == some aid && row.description == desc)
            then 1 else 0)
    ∧ automation_pending_task_count s2 aid desc
      = automation_pending_task_count s aid desc
        + (if (row.created_by_automation_id == some aid && row.description == desc
            && row.status == "pending") then 1 else 0) := by
  unfold automation_task_count automation_pending_task_count
  rw [h, List.filter_append, List.filter_append, List.length_append, List.length_append,
    filter_singleton_length, filter_singleton_length]
  exact ⟨rfl, rfl⟩

lemma pending_count_pos_of_find (s : DBState) (aid : Nat) (desc : String) (t : Task)
    (h : s.tasks.find? (fun t => t.created_by_automation_id == some aid
        && t.description == desc && t.status == "pending") = some t) :
    0 < automation_pending_task_count s aid desc := by
  have hmem := List.mem_of_find?_eq_some h
  have hpred := List.find?_some h
  unfold automation_pending_task_count
  rw [List.length_pos]
  intro hnil
  exact (List.filter_eq_nil_iff.mp hnil t hmem) hpred

lemma pending_count_zero_of_find_none (s : DBState) (aid : Nat) (desc : String)
    (h : s.tasks.find? (fun t => t.created_by_automation_id == some aid
        && t.description == desc && t.status == "pending") = none) :
    automation_pending_task_count s aid desc = 0 := by
  unfold automation_pending_task_count
  rw [List.length_eq_zero, List.filter_eq_nil_iff]
  intro t hmem hpred
  exact (List.find?_eq_none.mp h t hmem) hpred

lemma run_actions_cons_fst (s : DBState) (x : AutomationAction)
    (rest : List AutomationAction) (d : String) (aid : Nat) :
    (run_actions s (x :: rest) d aid).1
      = (run_actions (execute_automation_action s x d aid).1 rest d aid).1 := by
  simp only [run_actions]
  cases hk : (execute_automation_action s x d aid).2 <;> simp [hk]

lemma run_ensure_counts (aid : Nat) (d : String) :
    ∀ (acts : List AutomationAction) (s : DBState) (c : String → Nat),
    (∀ x ∈ acts, x.action_type = "ensure_task_link") →
    (∀ desc, automation_task_count s aid desc = c desc) →
    (∀ desc, automation_pending_task_count s aid desc = c desc) →
    (∀ desc, c desc ≤ 1) →
    (∀ desc, automation_task_count (run_actions s acts d aid).1 aid desc
        = (if desc ∈ ensure_descs acts then 1 else c desc))
    ∧ (∀ desc, automation_pending_task_count (run_actions s acts d aid).1 aid desc
        = (if desc ∈ ensure_descs acts then 1 else c desc))
  | [], s, c, _, hc, hpc, _ => by
    constructor <;> intro desc <;>
      simp [run_actions, ensure_descs, hc desc, hpc desc]
  | x :: rest, s, c, hall, hc, hpc, hb => by
    have hx : x.action_type = "ensure_task_link" := hall x (List.mem_cons_self x rest)
    have hallr : ∀ y ∈ rest, y.action_type = "ensure_task_link" :=
      fun y hy => hall y (List.mem_cons_of_mem x hy)
    rw [run_actions_cons_fst]
    cases hp : py_truthy x.param1 with
    | false =>
      have hexec : (execute_automation_action s x d aid).1 = s := by
        unfold execute_automation_action
        rw [hx]
        simp [hp]
      have hdescs : ensure_descs (x :: rest) = ensure_descs rest := by
        unfold ensure_descs
        rw [List.filterMap_cons]
        simp [hx, hp]
      rw [hexec, hdescs]
      exact run_ensure_counts aid d rest s c hallr hc hpc hb
    | true =>
      obtain ⟨v, hv⟩ : ∃ v, x.param1 = some v := by
        cases hxp : x.param1
        · rw [hxp] at hp
          simp [py_truthy] at hp
        · exact ⟨_, rfl⟩
      have hdescs : ensure_descs (x :: rest) = (x.param1.getD "") :: ensure_descs rest := by
        unfold ensure_descs
        rw [List.filterMap_cons, hv]
        rw [hv] at hp
        simp [hx, hp]
      cases hfind : s.tasks.find? (fun t => t.created_by_automation_id == some aid
          && t.description == (x.param1.getD "") && t.status == "pending") with
      | some t =>
        have hexec : (execute_automation_action s x d aid).1
            = add_task_show_date s t.id d := by
          unfold execute_automation_action
          rw [hx]
          simp [hp, hfind]
        have hc0 : c (x.param1.getD "") = 1 := by
          have hpos := pending_count_pos_of_find s aid (x.param1.getD "") t hfind
          rw [hpc] at hpos
          exact Nat.le_antisymm (hb _) hpos
        have htasks := add_task_show_date_tasks_eq s t.id d
        have hc2 := (counts_congr s (add_task_show_date s t.id d) aid htasks).1
        have hpc2 := (counts_congr s (add_task_show_date s t.id d) aid htasks).2
        have ih := run_ensure_counts aid d rest (add_task_show_date s t.id d) c hallr
          (fun desc => (hc2 desc).trans (hc desc))
          (fun desc => (hpc2 desc).trans (hpc desc)) hb
        rw [hexec, hdescs]
        refine ⟨fun desc => ?_, fun desc => ?_⟩
        · rw [ih.1 desc]
          by_cases h1 : desc = x.param1.getD ""
          · subst h1
            by_cases h2 : x.param1.getD "" ∈ ensure_descs rest <;>
              simp [h2, hc0, List.mem_cons]
          · by_cases h2 : desc ∈ ensure_descs rest <;> simp [h1, h2, List.mem_cons]
        · rw [ih.2 desc]
          by_cases h1 : desc = x.param1.getD ""
          · subst h1
            by_cases h2 : x.param1.getD "" ∈ ensure_descs rest <;>
              simp [h2, hc0, List.mem_cons]
          · by_cases h2 : desc ∈ ensure_descs rest <;> simp [h1, h2, List.mem_cons]
      | none =>
        have hc0 : c (x.param1.getD "") = 0 := by
          rw [← hpc]
          exact pending_count_zero_of_find_none s aid _ hfind
        have hexec : (execute_automation_action s x d aid).1.tasks
            = s.tasks
              ++ [{ id := s.next_uuid, description := x.param1.getD "",
                    status := "pending", date_added := d, deadline := none,
                    priority := x.param2, category := x.param3,
                    notes := some "Auto-generated by automation rule.",
                    date_completed := none, schedule_event_id := none,
                    created_by_automation_id := some aid, show_mode := "auto",
                    parent_task_id := none }] := by
          unfold execute_automation_action
          rw [hx]
          simp [hp, hfind, add_task, add_task_show_date_tasks_eq]
        have hrow := count_append_row s (execute_automation_action s x d aid).1 aid _
          hexec
        have hc1 : ∀ desc, automation_task_count (execute_automation_action s x d aid).1
            aid desc = (if desc = x.param1.getD "" then 1 else c desc) := by
          intro desc
          rw [(hrow desc).1, hc desc]
          by_cases h1 : desc = x.param1.getD ""
          · subst h1
            simp [hc0]
          · have : ((x.param1.getD "") == desc) = false := by
              simp [Ne.symm h1]
            simp [this, h1]
        have hpc1 : ∀ desc,
            automation_pending_task_count (execute_automation_action s x d aid).1 aid desc
              = (if desc = x.param1.getD "" then 1 else c desc) := by
          intro desc
          rw [(hrow desc).2, hpc desc]
          by_cases h1 : desc = x.param1.getD ""
          · subst h1
            simp [hc0]
          · have : ((x.param1.getD "") == desc) = false := by
              simp [Ne.symm h1]
            simp [this, h1]
        have hb1 : ∀ desc, (if desc = x.param1.getD "" then 1 else c desc) ≤ 1 := by
          intro desc
          by_cases h1 : desc = x.param1.getD "" <;> simp [h1, hb desc]
        have ih := run_ensure_counts aid d rest (execute_automation_action s x d aid).1
          (fun desc => if desc = x.param1.getD "" then 1 else c desc) hallr hc1 hpc1 hb1
        rw [hdescs]
        refine ⟨fun desc => ?_, fun desc => ?_⟩
        · rw [ih.1 desc]
          by_cases h1 : desc = x.param1.getD ""
          · subst h1
            by_cases h2 : x.param1.getD "" ∈ ensure_descs rest <;>
              simp [h2, List.mem_cons]
          · by_cases h2 : desc ∈ ensure_descs rest <;> simp [h1, h2, List.mem_cons]
        · rw [ih.2 desc]
          by_cases h1 : desc = x.param1.getD ""
          · subst h1
            by_cases h2 : x.param1.getD "" ∈ ensure_descs rest <;>
              simp [h2, List.mem_cons]
          · by_cases h2 : desc ∈ ensure_descs rest <;> simp [h1, h2, List.mem_cons]

lemma execute_keeps_rule_tables (s : DBState) (x : AutomationAction) (d : String)
    (aid : Nat) :
    (execute_automation_action s x d aid).1.automations = s.automations
    ∧ (execute_automation_action s x d aid).1.automation_actions = s.automation_actions := by
  unfold execute_automation_action
  repeat' split <;>
    simp [add_task, add_task_show_date, add_schedule_event, apply_ite]

lemma run_actions_keeps_rule_tables (d : String) (aid : Nat) :
    ∀ (acts : List AutomationAction) (s : DBState),
    (run_actions s acts d aid).1.automations = s.automations
    ∧ (run_actions s acts d aid).1.automation_actions = s.automation_actions
  | [], _ => ⟨rfl, rfl⟩
  | x :: rest, s => by
    rw [run_actions_cons_fst]
    have he := execute_keeps_rule_tables s x d aid
    have ih := run_actions_keeps_rule_tables d aid rest (execute_automation_action s x d aid).1
    exact ⟨ih.1.trans he.1, ih.2.trans he.2⟩

lemma execute_ensure_keeps_schedule (s : DBState) (x : AutomationAction) (d : String)
    (aid : Nat) (hx : x.action_type = "ensure_task_link") :
    (execute_automation_action s x d aid).1.schedule_events = s.schedule_events := by
  unfold execute_automation_action
  rw [hx]
  simp only [beq_self_eq_true, if_true]
  repeat' split <;>
    simp [add_task, add_task_show_date, apply_ite]

lemma run_ensure_keeps_schedule (d : String) (aid : Nat) :
    ∀ (acts : List AutomationAction) (s : DBState),
    (∀ x ∈ acts, x.action_type = "ensure_task_link") →
    (run_actions s acts d aid).1.schedule_events = s.schedule_events
  | [], _, _ => rfl
  | x :: rest, s, hall => by
    rw [run_actions_cons_fst]
    have he := execute_ensure_keeps_schedule s x d aid (hall x (List.mem_cons_self x rest))
    have ih := run_ensure_keeps_schedule d aid rest (execute_automation_action s x d aid).1
      (fun y hy => hall y (List.mem_cons_of_mem x hy))
    exact ih.trans he

lemma execute_schedule_effect (s : DBState) (x : AutomationAction) (d : String)
    (aid : Nat) (hx : x.action_type = "create_schedule_block") :
    (execute_automation_action s x d aid).1.tasks = s.tasks
    ∧ (execute_automation_action s x d aid).1.schedule_events.length
        = s.schedule_events.length
          + (if (py_truthy x.param1 && py_truthy x.param2 && py_truthy x.param3)
              then 1 else 0) := by
  unfold execute_automation_action
  rw [hx]
  have hne : (("create_schedule_block" : String) == "ensure_task_link") = false := by decide
  rw [hne]
  simp only [Bool.false_eq_true, if_false, beq_self_eq_true, if_true]
  cases hv : (py_truthy x.param1 && py_truthy x.param2 && py_truthy x.param3) <;>
    simp [hv, add_schedule_event]

lemma run_schedule_effect (d : String) (aid : Nat) :
    ∀ (acts : List AutomationAction) (s : DBState),
    (∀ x ∈ acts, x.action_type = "create_schedule_block") →
    (run_actions s acts d aid).1.tasks = s.tasks
    ∧ (run_actions s acts d aid).1.schedule_events.length
        = s.schedule_events.length + valid_schedule_count acts
  | [], s, _ => by
    exact ⟨rfl, by simp [run_actions, valid_schedule_count]⟩
  | x :: rest, s, hall => by
    have hx := hall x (List.mem_cons_self x rest)
    have hallr : ∀ y ∈ rest, y.action_type = "create_schedule_block" :=
      fun y hy => hall y (List.mem_cons_of_mem x hy)
    rw [run_actions_cons_fst]
    have he := execute_schedule_effect s x d aid hx
    have ih := run_schedule_effect d aid rest (execute_automation_action s x d aid).1 hallr
    refine ⟨ih.1.trans he.1, ?_⟩
    rw [ih.2, he.2]
    have hvc : valid_schedule_count (x :: rest)
        = (if (py_truthy x.param1 && py_truthy x.param2 && py_truthy x.param3)
            then 1 else 0) + valid_schedule_count rest := by
      unfold valid_schedule_count
      rw [List.filter_cons]
      cases hv : (py_truthy x.param1 && py_truthy x.param2 && py_truthy x.param3) <;>
        simp [hx, hv, Nat.add_comm]
    rw [hvc]
    omega

lemma run_reduces_to_matched (s : DBState) (title d : String) (rule : Automation)
    (ht : title ≠ "") (hr : lookup_rule s.automations title = some rule) :
    run_automations_for_event s title d = run_matched_rule s rule d := by
  have hne : (title == "") = false := beq_eq_false_iff_ne.mpr ht
  simp only [run_automations_for_event, hne, Bool.false_eq_true, if_false, hr]

lemma run_event_effect (s : DBState) (title d : String) (rule : Automation)
    (c : String → Nat)
    (ht : title ≠ "")
    (hr : lookup_rule s.automations title = some rule)
    (hc : ∀ desc, automation_task_count s rule.id desc = c desc)
    (hpc : ∀ desc, automation_pending_task_count s rule.id desc = c desc)
    (hb : ∀ desc, c desc ≤ 1) :
    (∀ desc, automation_task_count (run_automations_for_event s title d).1 rule.id desc
        = (if desc ∈ ensure_descs (get_actions_for_automation s rule.id) then 1 else c desc))
    ∧ (∀ desc,
        automation_pending_task_count (run_automations_for_event s title d).1 rule.id desc
        = (if desc ∈ ensure_descs (get_actions_for_automation s rule.id) then 1 else c desc))
    ∧ (run_automations_for_event s title d).1.schedule_events.length
        = s.schedule_events.length
          + valid_schedule_count (get_actions_for_automation s rule.id)
    ∧ (run_automations_for_event s title d).1.automations = s.automations
    ∧ (run_automations_for_event s title d).1.automation_actions = s.automation_actions := by
  rw [run_reduces_to_matched s title d rule ht hr]
  by_cases hae : (get_actions_for_automation s rule.id).isEmpty
  · have hacts : get_actions_for_automation s rule.id = [] := List.isEmpty_iff.mp hae
    have hrun : run_matched_rule s rule d = (s, false) := by
      simp only [run_matched_rule, hae, if_true]
    rw [hrun, hacts]
    refine ⟨?_, ?_, ?_, rfl, rfl⟩
    · intro desc
      simp [ensure_descs, hc desc]
    · intro desc
      simp [ensure_descs, hpc desc]
    · simp [valid_schedule_count]
  · have haeF : (get_actions_for_automation s rule.id).isEmpty = false := by
      cases hh : (get_actions_for_automation s rule.id).isEmpty
      · rfl
      · exact absurd hh hae
    set A := get_actions_for_automation s rule.id with hA
    set TA := A.filter (fun a => a.action_type == "ensure_task_link") with hTA
    set P := run_actions s TA d rule.id with hP
    set SA := A.filter (fun a => a.action_type == "create_schedule_block") with hSA
    set Q := run_actions P.1 SA d rule.id with hQ
    have hrun : run_matched_rule s rule d
        = (if !P.2.isEmpty && !Q.2.isEmpty then link_all Q.1 P.2 Q.2 else Q.1,
           !P.2.isEmpty || !Q.2.isEmpty) := by
      rw [run_matched_rule]
      simp only [← hA, haeF, Bool.false_eq_true, if_false, ← hTA, ← hP, ← hSA, ← hQ]
    rw [hrun]
    have hTAty : ∀ y ∈ TA, y.action_type = "ensure_task_link" := by
      intro y hy
      rw [hTA] at hy
      simpa using (List.mem_filter.mp hy).2
    have hSAty : ∀ y ∈ SA, y.action_type = "create_schedule_block" := by
      intro y hy
      rw [hSA] at hy
      simpa using (List.mem_filter.mp hy).2
    have hens := run_ensure_counts rule.id d TA s c hTAty hc hpc hb
    have hensS : P.1.schedule_events = s.schedule_events :=
      run_ensure_keeps_schedule d rule.id TA s hTAty
    have hensR := run_actions_keeps_rule_tables d rule.id TA s
    have hsch := run_schedule_effect d rule.id SA P.1 hSAty
    have hschR := run_actions_keeps_rule_tables d rule.id SA P.1
    have hQc := counts_congr P.1 Q.1 rule.id hsch.1
    have hdescs : ensure_descs TA = ensure_descs A := by
      rw [hTA]
      exact ensure_descs_filter A
    have hvsc : valid_schedule_count SA = valid_schedule_count A := by
      rw [hSA]
      exact valid_schedule_count_filter A
    have hfinal :
        (∀ desc, automation_task_count
            (if !P.2.isEmpty && !Q.2.isEmpty then link_all Q.1 P.2 Q.2 else Q.1)
            rule.id desc = automation_task_count Q.1 rule.id desc)
        ∧ (∀ desc, automation_pending_task_count
            (if !P.2.isEmpty && !Q.2.isEmpty then link_all Q.1 P.2 Q.2 else Q.1)
            rule.id desc = automation_pending_task_count Q.1 rule.id desc)
        ∧ (if !P.2.isEmpty && !Q.2.isEmpty then link_all Q.1 P.2 Q.2
            else Q.1).schedule_events = Q.1.schedule_events
        ∧ (if !P.2.isEmpty && !Q.2.isEmpty then link_all Q.1 P.2 Q.2
            else Q.1).automations = Q.1.automations
        ∧ (if !P.2.isEmpty && !Q.2.isEmpty then link_all Q.1 P.2 Q.2
            else Q.1).automation_actions = Q.1.automation_actions := by
      by_cases hcond : (!P.2.isEmpty && !Q.2.isEmpty) = true
      · rw [if_pos hcond]
        exact ⟨fun desc => (link_all_effect rule.id desc P.2 Q.2 Q.1).2.2.2.1,
          fun desc => (link_all_effect rule.id desc P.2 Q.2 Q.1).2.2.2.2,
          (link_all_effect rule.id "" P.2 Q.2 Q.1).1,
          (link_all_effect rule.id "" P.2 Q.2 Q.1).2.1,
          (link_all_effect rule.id "" P.2 Q.2 Q.1).2.2.1⟩
      · rw [if_neg hcond]
        exact ⟨fun _ => rfl, fun _ => rfl, rfl, rfl, rfl⟩
    refine ⟨?_, ?_, ?_, ?_, ?_⟩
    · intro desc
      rw [hfinal.1 desc, (hQc.1 desc), hens.1 desc, hdescs]
    · intro desc
      rw [hfinal.2.1 desc, (hQc.2 desc), hens.2 desc, hdescs]
    · rw [hfinal.2.2.1, hsch.2, hensS, hvsc]
    · rw [hfinal.2.2.2.1, hschR.1, hensR.1]
    · rw [hfinal.2.2.2.2, hschR.2, hensR.2]

/-- C2: for a store with no previous tasks of the matched rule, one run
creates exactly one pending task per distinct truthy task-action description
(count 1 for a description the rule ensures, 0 otherwise), a second identical
run creates no further task for any description, and each of the two runs
appends exactly one new ScheduleEvent per fully-parameterised schedule action
(schedule actions are not idempotent). -/
theorem run_rule_twice_idempotent_tasks_new_schedule (s : DBState) (title d : String)
    (rule : Automation)
    (ht : title ≠ "")
    (hr : lookup_rule s.automations title = some rule)
    (h0 : ∀ t ∈ s.tasks, t.created_by_automation_id ≠ some rule.id) :
    (∀ desc, automation_task_count (run_automations_for_event s title d).1 rule.id desc
        = (if desc ∈ ensure_descs (get_actions_for_automation s rule.id) then 1 else 0))
    ∧ (∀ desc, automation_task_count
          (run_automations_for_event
            (run_automations_for_event s title d).1 title d).1 rule.id desc
        = automation_task_count (run_automations_for_event s title d).1 rule.id desc)
    ∧ (run_automations_for_event s title d).1.schedule_events.length
        = s.schedule_events.length
          + valid_schedule_count (get_actions_for_automation s rule.id)
    ∧ (run_automations_for_event
          (run_automations_for_event s title d).1 title d).1.schedule_events.length
        = (run_automations_for_event s title d).1.schedule_events.length
          + valid_schedule_count (get_actions_for_automation s rule.id) := by
  have hc0 : ∀ desc, automation_task_count s rule.id desc = 0 := by
    intro desc
    unfold automation_task_count
    rw [List.length_eq_zero, List.filter_eq_nil_iff]
    intro t hmem hpred
    simp only [Bool.and_eq_true, beq_iff_eq] at hpred
    exact h0 t hmem hpred.1
  have hpc0 : ∀ desc, automation_pending_task_count s rule.id desc = 0 := by
    intro desc
    unfold automation_pending_task_count
    rw [List.length_eq_zero, List.filter_eq_nil_iff]
    intro t hmem hpred
    simp only [Bool.and_eq_true, beq_iff_eq] at hpred
    exact h0 t hmem hpred.1.1
  obtain ⟨e1c, e1p, e1s, e1auto, e1act⟩ :=
    run_event_effect s title d rule (fun _ => 0) ht hr hc0 hpc0 (fun _ => Nat.zero_le 1)
  have hr1 : lookup_rule (run_automations_for_event s title d).1.automations title
      = some rule := by
    rw [e1auto]
    exact hr
  have hact1 : get_actions_for_automation (run_automations_for_event s title d).1 rule.id
      = get_actions_for_automation s rule.id := by
    unfold get_actions_for_automation
    rw [e1act]
  obtain ⟨e2c, _, e2s, _, _⟩ :=
    run_event_effect (run_automations_for_event s title d).1 title d rule
      (fun desc =>
        if desc ∈ ensure_descs (get_actions_for_automation s rule.id) then 1 else 0)
      ht hr1
      (fun desc => by rw [e1c desc])
      (fun desc => by rw [e1p desc])
      (fun desc => by
        by_cases h : desc ∈ ensure_descs (get_actions_for_automation s rule.id) <;>
          simp [h])
  refine ⟨e1c, ?_, e1s, ?_⟩
  · intro desc
    rw [e2c desc, hact1, e1c desc]
    by_cases h : desc ∈ ensure_descs (get_actions_for_automation s rule.id) <;> simp [h]
  · rw [e2s, hact1]

/-- One rule with one task action and two schedule actions, for the
idempotence witness. -/
def c2state : DBState :=
  { automations := [⟨1, "R", "r"⟩],
    automation_actions := [⟨10, 1, "ensure_task_link", some "T", none, none⟩,
      ⟨11, 1, "create_schedule_block", some "S1", some "14:00", some "15:00"⟩,
      ⟨12, 1, "create_schedule_block", some "S2", some "15:00", some "16:00"⟩] }

/-- The rule stored in `c2state`. -/
def c2rule : Automation := ⟨1, "R", "r"⟩

/-- Witness for `run_rule_twice_idempotent_tasks_new_schedule` at `c2state`,
instantiated at the description `"T"`. -/
theorem run_rule_twice_idempotent_tasks_new_schedule_witness :
    (("R" : String) ≠ ""
      ∧ lookup_rule c2state.automations "R" = some c2rule
      ∧ (∀ t ∈ c2state.tasks, t.created_by_automation_id ≠ some c2rule.id))
    ∧ automation_task_count (run_automations_for_event c2state "R" "2024-06-10").1
        c2rule.id "T"
      = (if "T" ∈ ensure_descs (get_actions_for_automation c2state c2rule.id) then 1 else 0)
    ∧ automation_task_count
        (run_automations_for_event
          (run_automations_for_event c2state "R" "2024-06-10").1 "R" "2024-06-10").1
        c2rule.id "T"
      = automation_task_count (run_automations_for_event c2state "R" "2024-06-10").1
          c2rule.id "T"
    ∧ (run_automations_for_event c2state "R" "2024-06-10").1.schedule_events.length
      = c2state.schedule_events.length
        + valid_schedule_count (get_actions_for_automation c2state c2rule.id)
    ∧ (run_automations_for_event
          (run_automations_for_event c2state "R" "2024-06-10").1
          "R" "2024-06-10").1.schedule_events.length
      = (run_automations_for_event c2state "R" "2024-06-10").1.schedule_events.length
        + valid_schedule_count (get_actions_for_automation c2state c2rule.id) :=
  ⟨⟨by decide, by decide, by decide⟩,
   (run_rule_twice_idempotent_tasks_new_schedule c2state "R" "2024-06-10" c2rule
     (by decide) (by decide) (by decide)).1 "T",
   (run_rule_twice_idempotent_tasks_new_schedule c2state "R" "2024-06-10" c2rule
     (by decide) (by decide) (by decide)).2.1 "T",
   (run_rule_twice_idempotent_tasks_new_schedule c2state "R" "2024-06-10" c2rule
     (by decide) (by decide) (by decide)).2.2.1,
   (run_rule_twice_idempotent_tasks_new_schedule c2state "R" "2024-06-10" c2rule
     (by decide) (by decide) (by decide)).2.2.2⟩

end TaskManager
